import Mathlib

/-!
Shallow embedding of `knotes.py` ("OOP - MODULES"), a single-file teaching
script that sketches a task-management application split into notional
modules: data access (`TaskRepository`), business logic (`TaskService`,
`Task`), a CLI (`start_application`), utilities (`format_date`),
configuration (`FILENAME`), tests (`TestTaskService.test_add_task`) and
constants (`TASK_MAX_LENGTH`).

Modelling conventions:
- Python values that flow through the stubbed interfaces are modelled by
  `PyVal`; the Python `None` returned by a `pass` body is `PyVal.none`.
- Each operation takes the module-level configuration (`config.py`) as an
  explicit `Config` argument, making the ambient global `FILENAME` visible
  to every function exactly as Python's module globals are; no operation
  reads it, mirroring the source.
- Methods are state-passing: a method on a receiver returns the Python
  return value paired with the updated receiver.
- The CLI loop consumes a finite list of input lines; running out of input
  is reported as `RunResult.outOfInput` (Python would raise `EOFError`).
  Uncaught `TypeError`s surface as `RunResult.typeError`. Quote characters
  inside CPython error messages are elided from the message strings.
-/

namespace Knotes

/-- The configuration module (config.py): module-level settings that are in
scope for the whole program. `knotes.py` line 286 declares `FILENAME`. -/
structure Config where
  FILENAME : String
deriving DecidableEq

/-- The configuration as written in the source: `FILENAME = "data.txt"`. -/
def theConfig : Config := { FILENAME := "data.txt" }

/-- The `Task` entity (lines 208-212): a plain record whose constructor sets
`title` and `description` and nothing else. -/
structure Task where
  title : String
  description : String
deriving DecidableEq

/-- `Task.__init__` (lines 209-212): stores the two arguments as attributes.
It performs no validation, so it is total. -/
def Task.new (_cfg : Config) (title description : String) : Task :=
  { title := title, description := description }

/-- Python values exchanged across the stubbed interfaces: `None`, strings,
lists, and `Task` objects. -/
inductive PyVal where
  | none
  | str (s : String)
  | list (xs : List PyVal)
  | taskObj (t : Task)

mutual

/-- Structural equality on `PyVal`, used to model the `in` membership test
of `assertIn` (line 317). (For `Task` objects CPython compares identities;
the only `assertIn` in the source is unreachable, see `test_add_task`.) -/
def PyVal.beq : PyVal → PyVal → Bool
  | PyVal.none, PyVal.none => true
  | PyVal.str a, PyVal.str b => a == b
  | PyVal.taskObj a, PyVal.taskObj b => a == b
  | PyVal.list as, PyVal.list bs => PyVal.beqList as bs
  | _, _ => false

/-- Pointwise `PyVal.beq` on lists. -/
def PyVal.beqList : List PyVal → List PyVal → Bool
  | [], [] => true
  | a :: as, b :: bs => PyVal.beq a b && PyVal.beqList as bs
  | _, _ => false

end

/-- Python iteration (`for x in v`): lists yield their elements, strings
yield their characters, everything else (in particular `None` and `Task`
objects) raises `TypeError`, modelled as `Option.none`. -/
def PyVal.iterate : PyVal → Option (List PyVal)
  | PyVal.list xs => Option.some xs
  | PyVal.str s => Option.some (s.data.map fun c => PyVal.str (String.mk [c]))
  | _ => Option.none

/-- Python `str(v)` as used by the f-string `f"- {task}"` (line 246).
`str(None)` is "None" and `str` of a string is itself. Lists and `Task`
objects have reprs involving element quoting and memory addresses; they are
rendered schematically here, which is irrelevant to every theorem below
because `get_tasks` always returns `None`, so the display loop of lines
245-246 never receives them. -/
def PyVal.pyStr : PyVal → String
  | PyVal.none => "None"
  | PyVal.str s => s
  | PyVal.list _ => "[...]"
  | PyVal.taskObj _ => "<__main__.Task object>"

/-- Python `len(v)`: defined for strings and lists, a `TypeError`
(modelled as `Option.none`) otherwise — in particular `len(None)` fails. -/
def pyLen : PyVal → Option Nat
  | PyVal.str s => Option.some s.length
  | PyVal.list xs => Option.some xs.length
  | _ => Option.none

/-- Python substring containment `sub in s`. -/
def pyStrContains (s sub : String) : Bool :=
  sub.isEmpty || (s.splitOn sub).length != 1

/-- Python membership `x in container`: lists test element equality,
strings test substring containment of a string, everything else (in
particular `None`) raises `TypeError`, modelled as `Option.none`. -/
def pyContains (container x : PyVal) : Option Bool :=
  match container, x with
  | PyVal.list xs, x => Option.some (xs.any fun y => PyVal.beq y x)
  | PyVal.str s, PyVal.str sub => Option.some (pyStrContains s sub)
  | _, _ => Option.none

/-- The data access module's `TaskRepository` (lines 170-178). It declares
no attributes and no storage medium. -/
structure TaskRepository where
deriving DecidableEq

/-- `TaskRepository.get_tasks` (lines 171-174): the body is `pass`, so the
call returns `None` and leaves the receiver untouched. -/
def TaskRepository.get_tasks (_cfg : Config) (self : TaskRepository) :
    PyVal × TaskRepository :=
  (PyVal.none, self)

/-- `TaskRepository.save_task` (lines 176-178): the body is `pass`, so the
call returns `None` and leaves the receiver untouched. -/
def TaskRepository.save_task (_cfg : Config) (self : TaskRepository)
    (_task : PyVal) : PyVal × TaskRepository :=
  (PyVal.none, self)

/-- The business logic module's `TaskService` (lines 195-206), holding the
`task_repository` attribute set by `__init__`. -/
structure TaskService where
  task_repository : TaskRepository
deriving DecidableEq

/-- `TaskService.__init__` (lines 196-198): installs a fresh
`TaskRepository`. -/
def TaskService.new : TaskService :=
  { task_repository := TaskRepository.mk }

/-- `TaskService.get_all_tasks` (lines 200-202): returns
`self.task_repository.get_tasks()`. -/
def TaskService.get_all_tasks (cfg : Config) (self : TaskService) :
    PyVal × TaskService :=
  match self.task_repository.get_tasks cfg with
  | (r, repo) => (r, { self with task_repository := repo })

/-- `TaskService.add_task` (lines 204-206): calls
`self.task_repository.save_task(task)` and, having no `return` statement,
returns `None`. -/
def TaskService.add_task (cfg : Config) (self : TaskService)
    (task : PyVal) : PyVal × TaskService :=
  match self.task_repository.save_task cfg task with
  | (_, repo) => (PyVal.none, { self with task_repository := repo })

/-- The utilities module's `format_date` (lines 270-272): the body is
`pass`, so it returns `None` for every argument. -/
def format_date (_cfg : Config) (_date : PyVal) : PyVal :=
  PyVal.none

/-- The constants module (line 335): `TASK_MAX_LENGTH = 100`. -/
def TASK_MAX_LENGTH : Nat := 100

/-- The outcome of running `TestTaskService.test_add_task`. -/
inductive TestResult where
  | passed
  | failed (assertion : String)
  | errored (msg : String)
deriving DecidableEq

/-- `TestTaskService.test_add_task` (lines 303-317), run against the real
`TaskService` and its stub repository: Arrange builds a service and takes
`len(task_service.get_all_tasks())`; Act adds a `Task`; Assert compares the
counts and membership. Since `get_all_tasks` returns `None`, the first
`len` raises `TypeError` before any assertion runs. -/
def test_add_task (cfg : Config) : TestResult :=
  match TaskService.new.get_all_tasks cfg with
  | (r1, task_service) =>
    match pyLen r1 with
    | Option.none => TestResult.errored "object of type NoneType has no len()"
    | Option.some initial_task_count =>
      match task_service.add_task cfg
          (PyVal.taskObj (Task.new cfg "New Task" "Description of the new task")) with
      | (_, task_service) =>
        match task_service.get_all_tasks cfg with
        | (r2, task_service) =>
          match pyLen r2 with
          | Option.none => TestResult.errored "object of type NoneType has no len()"
          | Option.some updated_task_count =>
            if updated_task_count = initial_task_count + 1 then
              match task_service.get_all_tasks cfg with
              | (r3, _) =>
                match pyContains r3
                    (PyVal.taskObj (Task.new cfg "New Task" "Description of the new task")) with
                | Option.none =>
                  TestResult.errored "argument of type NoneType is not iterable"
                | Option.some b =>
                  if b then TestResult.passed else TestResult.failed "assertIn"
            else TestResult.failed "assertEqual"

/-- Service-level calls made by the CLI loop, recorded as a ghost trace so
that theorems can speak about which arguments reach the service. -/
inductive Event where
  | getAllTasks
  | addTask (v : PyVal)

/-- The menu printed at the top of every iteration (lines 235-238). -/
def menuLines : List String :=
  ["Task Management Application", "1. View Tasks", "2. Add Task", "3. Quit"]

/-- The prompt written by `input("Enter your choice: ")` (line 240). -/
def promptChoice : String := "Enter your choice: "

/-- The prompt written by `input("Enter task description: ")` (line 248). -/
def promptTask : String := "Enter task description: "

/-- The message of the `TypeError` raised by `for task in None`. -/
def noneIterMsg : String := "NoneType object is not iterable"

/-- The outcome of running the CLI loop on a finite list of input lines:
normal exit via choice "3", an uncaught `TypeError`, or exhausting the
input (Python would raise `EOFError` at the next `input()`). Each carries
the text printed so far, the ghost trace of service calls, and the final
service state. -/
inductive RunResult where
  | exited (output : List String) (events : List Event) (service : TaskService)
  | typeError (msg : String) (output : List String) (events : List Event)
      (service : TaskService)
  | outOfInput (output : List String) (events : List Event)
      (service : TaskService)

/-- Whether the loop exited normally through the `break` of choice "3". -/
def RunResult.isExited : RunResult → Bool
  | RunResult.exited _ _ _ => true
  | _ => false

/-- The text printed by the run, in order. -/
def RunResult.output : RunResult → List String
  | RunResult.exited o _ _ => o
  | RunResult.typeError _ o _ _ => o
  | RunResult.outOfInput o _ _ => o

/-- The ghost trace of service calls made by the run. -/
def RunResult.events : RunResult → List Event
  | RunResult.exited _ e _ => e
  | RunResult.typeError _ _ e _ => e
  | RunResult.outOfInput _ e _ => e

/-- The final service state of the run. -/
def RunResult.service : RunResult → TaskService
  | RunResult.exited _ _ s => s
  | RunResult.typeError _ _ _ s => s
  | RunResult.outOfInput _ _ s => s

/-- The body of the `while True` loop of `start_application` (lines
234-255), driven by the remaining input lines. Each iteration prints the
menu and reads a choice; "1" fetches the tasks and iterates over them
(raising `TypeError`, since `get_all_tasks` yields `None`), "2" reads a
description line and passes the raw string to `add_task`, "3" prints the
goodbye message and breaks, anything else prints the error message and
loops. -/
def start_application_go (cfg : Config) (service : TaskService)
    (output : List String) (events : List Event) : List String → RunResult
  | [] => RunResult.outOfInput (output ++ menuLines ++ [promptChoice]) events service
  | choice :: rest =>
    if choice = "1" then
      match (service.get_all_tasks cfg).1.iterate with
      | Option.some xs =>
        start_application_go cfg (service.get_all_tasks cfg).2
          (output ++ menuLines ++ [promptChoice] ++ ["Tasks: "]
            ++ xs.map fun v => "- " ++ v.pyStr)
          (events ++ [Event.getAllTasks]) rest
      | Option.none =>
        RunResult.typeError noneIterMsg
          (output ++ menuLines ++ [promptChoice] ++ ["Tasks: "])
          (events ++ [Event.getAllTasks]) (service.get_all_tasks cfg).2
    else if choice = "2" then
      match rest with
      | [] =>
        RunResult.outOfInput
          (output ++ menuLines ++ [promptChoice] ++ [promptTask]) events service
      | new_task :: rest2 =>
        start_application_go cfg (service.add_task cfg (PyVal.str new_task)).2
          (output ++ menuLines ++ [promptChoice] ++ [promptTask]
            ++ ["Task added successfully"])
          (events ++ [Event.addTask (PyVal.str new_task)]) rest2
    else if choice = "3" then
      RunResult.exited
        (output ++ menuLines ++ [promptChoice]
          ++ ["Exiting the application. Goodbye!"]) events service
    else
      start_application_go cfg service
        (output ++ menuLines ++ [promptChoice]
          ++ ["Invalid Choice. Please try again."]) events rest

/-- `start_application` (lines 230-255): builds a fresh `TaskService` and
runs the menu loop on the given input lines. -/
def start_application (cfg : Config) (inputs : List String) : RunResult :=
  start_application_go cfg TaskService.new [] [] inputs

/-- Whether processing the input lines in the loop's order reaches the
choice "3" before any choice "1" (choice "2" consumes the following line
as the task description): exactly the inputs on which the loop exits
normally. -/
def exitsBefore : List String → Bool
  | [] => false
  | choice :: rest =>
    if choice = "1" then false
    else if choice = "2" then
      match rest with
      | [] => false
      | _ :: rest2 => exitsBefore rest2
    else if choice = "3" then true
    else exitsBefore rest

set_option smartUnfolding false in
/-- One loop iteration on choice "1": the service call yields `None`, the
`for` raises, and the run ends in a `TypeError` after printing the menu,
the prompt and the "Tasks: " header. -/
theorem go_view_eq (cfg : Config) (svc : TaskService) (out : List String)
    (ev : List Event) (rest : List String) :
    start_application_go cfg svc out ev ("1" :: rest) =
      RunResult.typeError noneIterMsg
        (out ++ menuLines ++ [promptChoice] ++ ["Tasks: "])
        (ev ++ [Event.getAllTasks]) svc :=
  rfl

set_option smartUnfolding false in
/-- One loop iteration on choice "2" followed by a description line: the
raw line reaches `add_task`, the success message is printed, and the loop
continues with the service state unchanged. -/
theorem go_add_eq (cfg : Config) (svc : TaskService) (out : List String)
    (ev : List Event) (line : String) (rest : List String) :
    start_application_go cfg svc out ev ("2" :: line :: rest) =
      start_application_go cfg svc
        (out ++ menuLines ++ [promptChoice] ++ [promptTask]
          ++ ["Task added successfully"])
        (ev ++ [Event.addTask (PyVal.str line)]) rest :=
  rfl

set_option smartUnfolding false in
/-- One loop iteration on choice "2" with no further input: the run stops
at the description prompt. -/
theorem go_add_eof_eq (cfg : Config) (svc : TaskService) (out : List String)
    (ev : List Event) :
    start_application_go cfg svc out ev ["2"] =
      RunResult.outOfInput
        (out ++ menuLines ++ [promptChoice] ++ [promptTask]) ev svc :=
  rfl

set_option smartUnfolding false in
/-- One loop iteration on choice "3": the goodbye message is printed and
the loop breaks. -/
theorem go_quit_eq (cfg : Config) (svc : TaskService) (out : List String)
    (ev : List Event) (rest : List String) :
    start_application_go cfg svc out ev ("3" :: rest) =
      RunResult.exited
        (out ++ menuLines ++ [promptChoice]
          ++ ["Exiting the application. Goodbye!"]) ev svc :=
  rfl

/-- With no input left, the loop stops at the choice prompt. -/
theorem go_nil_eq (cfg : Config) (svc : TaskService) (out : List String)
    (ev : List Event) :
    start_application_go cfg svc out ev [] =
      RunResult.outOfInput (out ++ menuLines ++ [promptChoice]) ev svc :=
  rfl

/-- One loop iteration on any choice other than "1", "2", "3": the error
message is printed and the loop continues unchanged otherwise. -/
theorem go_invalid_eq (cfg : Config) (svc : TaskService) (out : List String)
    (ev : List Event) (choice : String) (rest : List String)
    (h1 : choice ≠ "1") (h2 : choice ≠ "2") (h3 : choice ≠ "3") :
    start_application_go cfg svc out ev (choice :: rest) =
      start_application_go cfg svc
        (out ++ menuLines ++ [promptChoice]
          ++ ["Invalid Choice. Please try again."]) ev rest := by
  conv_lhs => rw [start_application_go.eq_def]
  simp +decide [h1, h2, h3]

/-- Unfolding lemma: no input left never exits. -/
theorem exitsBefore_nil : exitsBefore [] = false := rfl

set_option smartUnfolding false in
/-- Unfolding lemma: choice "1" never exits. -/
theorem exitsBefore_one (rest : List String) : exitsBefore ("1" :: rest) = false := rfl

set_option smartUnfolding false in
/-- Unfolding lemma: choice "2" skips the description line. -/
theorem exitsBefore_two (line : String) (rest : List String) :
    exitsBefore ("2" :: line :: rest) = exitsBefore rest := rfl

set_option smartUnfolding false in
/-- Unfolding lemma: choice "2" with no further input never exits. -/
theorem exitsBefore_two_nil : exitsBefore ["2"] = false := rfl

set_option smartUnfolding false in
/-- Unfolding lemma: choice "3" exits. -/
theorem exitsBefore_three (rest : List String) : exitsBefore ("3" :: rest) = true := rfl

/-- Unfolding lemma: an invalid choice is skipped. -/
theorem exitsBefore_other (choice : String) (rest : List String)
    (h1 : choice ≠ "1") (h2 : choice ≠ "2") (h3 : choice ≠ "3") :
    exitsBefore (choice :: rest) = exitsBefore rest := by
  conv_lhs => rw [exitsBefore.eq_def]
  simp +decide [h1, h2, h3]

/-- The loop exits normally exactly on the inputs described by
`exitsBefore`, and on those inputs the last printed line is the goodbye
message. Stated with an explicit length bound to drive the induction. -/
theorem go_exit_spec :
    ∀ (n : Nat) (inputs : List String), inputs.length ≤ n →
      ∀ (cfg : Config) (svc : TaskService) (out : List String) (ev : List Event),
        ((start_application_go cfg svc out ev inputs).isExited = exitsBefore inputs) ∧
        (exitsBefore inputs = true →
          (start_application_go cfg svc out ev inputs).output.getLast? =
            Option.some "Exiting the application. Goodbye!") := by
  intro n
  induction n with
  | zero =>
    intro inputs hlen cfg svc out ev
    rcases inputs with _ | ⟨choice, rest⟩
    · refine ⟨rfl, ?_⟩
      intro h
      rw [exitsBefore_nil] at h
      exact Bool.noConfusion h
    · simp [List.length_cons] at hlen
  | succ n ih =>
    intro inputs hlen cfg svc out ev
    rcases inputs with _ | ⟨choice, rest⟩
    · refine ⟨rfl, ?_⟩
      intro h
      rw [exitsBefore_nil] at h
      exact Bool.noConfusion h
    · by_cases h1 : choice = "1"
      · subst h1
        rw [go_view_eq]
        refine ⟨by rw [exitsBefore_one]; rfl, ?_⟩
        intro h
        rw [exitsBefore_one] at h
        exact Bool.noConfusion h
      · by_cases h2 : choice = "2"
        · subst h2
          rcases rest with _ | ⟨line, rest2⟩
          · rw [go_add_eof_eq]
            refine ⟨by rw [exitsBefore_two_nil]; rfl, ?_⟩
            intro h
            rw [exitsBefore_two_nil] at h
            exact Bool.noConfusion h
          · rw [go_add_eq]
            have hlen2 : rest2.length ≤ n := by
              simp [List.length_cons] at hlen
              omega
            have IH := ih rest2 hlen2 cfg svc
              (out ++ menuLines ++ [promptChoice] ++ [promptTask]
                ++ ["Task added successfully"])
              (ev ++ [Event.addTask (PyVal.str line)])
            refine ⟨?_, ?_⟩
            · rw [IH.1, exitsBefore_two]
            · intro h
              rw [exitsBefore_two] at h
              exact IH.2 h
        · by_cases h3 : choice = "3"
          · subst h3
            rw [go_quit_eq]
            refine ⟨by rw [exitsBefore_three]; rfl, ?_⟩
            intro _
            simp only [RunResult.output]
            rw [List.getLast?_append_cons]
            rfl
          · rw [go_invalid_eq cfg svc out ev choice rest h1 h2 h3]
            have hlen2 : rest.length ≤ n := by
              simp [List.length_cons] at hlen
              omega
            have IH := ih rest hlen2 cfg svc
              (out ++ menuLines ++ [promptChoice]
                ++ ["Invalid Choice. Please try again."]) ev
            refine ⟨?_, ?_⟩
            · rw [IH.1, exitsBefore_other choice rest h1 h2 h3]
            · intro h
              rw [exitsBefore_other choice rest h1 h2 h3] at h
              exact IH.2 h

/-- The loop never reads the configuration: two runs that differ only in
the `Config` value coincide. Stated with an explicit length bound to drive
the induction. -/
theorem go_cfg_irrelevant :
    ∀ (n : Nat) (inputs : List String), inputs.length ≤ n →
      ∀ (c1 c2 : Config) (svc : TaskService) (out : List String) (ev : List Event),
        start_application_go c1 svc out ev inputs =
          start_application_go c2 svc out ev inputs := by
  intro n
  induction n with
  | zero =>
    intro inputs hlen c1 c2 svc out ev
    rcases inputs with _ | ⟨choice, rest⟩
    · rfl
    · simp [List.length_cons] at hlen
  | succ n ih =>
    intro inputs hlen c1 c2 svc out ev
    rcases inputs with _ | ⟨choice, rest⟩
    · rfl
    · by_cases h1 : choice = "1"
      · subst h1
        rw [go_view_eq, go_view_eq]
      · by_cases h2 : choice = "2"
        · subst h2
          rcases rest with _ | ⟨line, rest2⟩
          · rw [go_add_eof_eq, go_add_eof_eq]
          · rw [go_add_eq, go_add_eq]
            have hlen2 : rest2.length ≤ n := by
              simp [List.length_cons] at hlen
              omega
            exact ih rest2 hlen2 c1 c2 svc _ _
        · by_cases h3 : choice = "3"
          · subst h3
            rw [go_quit_eq, go_quit_eq]
          · rw [go_invalid_eq c1 svc out ev choice rest h1 h2 h3,
              go_invalid_eq c2 svc out ev choice rest h1 h2 h3]
            have hlen2 : rest.length ≤ n := by
              simp [List.length_cons] at hlen
              omega
            exact ih rest hlen2 c1 c2 svc _ _

/-- Claim C1: running `TestTaskService.test_add_task` against the stub
`TaskRepository` does not pass: `get_tasks` returns `None`, so the
`len(task_service.get_all_tasks())` in the Arrange step raises `TypeError`
before the equality assertion is ever evaluated. -/
theorem claim_C1 :
    test_add_task theConfig =
      TestResult.errored "object of type NoneType has no len()" ∧
    test_add_task theConfig ≠ TestResult.passed :=
  ⟨rfl, by decide⟩

/-- Claim C2: for every receiver state and every argument,
`TaskRepository.get_tasks` and `TaskRepository.save_task` return `None`
and leave the receiver unchanged, and `format_date` returns `None`: they
are unimplemented placeholders with no storage medium. -/
theorem claim_C2 (cfg : Config) (repo : TaskRepository) (t d : PyVal) :
    repo.get_tasks cfg = (PyVal.none, repo) ∧
    repo.save_task cfg t = (PyVal.none, repo) ∧
    format_date cfg d = PyVal.none :=
  ⟨rfl, rfl, rfl⟩

/-- Claim C3: `TaskService.get_all_tasks` returns exactly
`self.task_repository.get_tasks()` (same value, same repository state) and
`TaskService.add_task` performs exactly
`self.task_repository.save_task(task)` (same repository state, `None`
return): the service adds no logic on top of the repository. -/
theorem claim_C3 (cfg : Config) (s : TaskService) (t : PyVal) :
    (s.get_all_tasks cfg).1 = (s.task_repository.get_tasks cfg).1 ∧
    (s.get_all_tasks cfg).2.task_repository = (s.task_repository.get_tasks cfg).2 ∧
    (s.add_task cfg t).2.task_repository = (s.task_repository.save_task cfg t).2 ∧
    (s.add_task cfg t).1 = PyVal.none :=
  ⟨rfl, rfl, rfl, rfl⟩

/-- Claim C4: on choice "2" the loop reads one free-text line, passes that
raw string unchanged to `TaskService.add_task` (the recorded event), prints
"Task added successfully" unconditionally, continues the loop, and the
repository state is unchanged (`add_task` returns the receiver as it was,
with return value `None`). -/
theorem claim_C4 (cfg : Config) (svc : TaskService) (out : List String)
    (ev : List Event) (line : String) (rest : List String) :
    start_application_go cfg svc out ev ("2" :: line :: rest) =
      start_application_go cfg svc
        (out ++ menuLines ++ [promptChoice] ++ [promptTask]
          ++ ["Task added successfully"])
        (ev ++ [Event.addTask (PyVal.str line)]) rest ∧
    (svc.add_task cfg (PyVal.str line)).2 = svc ∧
    (svc.add_task cfg (PyVal.str line)).1 = PyVal.none :=
  ⟨go_add_eq cfg svc out ev line rest, rfl, rfl⟩

/-- Claim C5: on any menu input other than "1", "2" or "3" the loop prints
"Invalid Choice. Please try again." and re-enters the loop on the remaining
input, with no other effect (same service state, no service calls). -/
theorem claim_C5 (cfg : Config) (svc : TaskService) (out : List String)
    (ev : List Event) (choice : String) (rest : List String)
    (h1 : choice ≠ "1") (h2 : choice ≠ "2") (h3 : choice ≠ "3") :
    start_application_go cfg svc out ev (choice :: rest) =
      start_application_go cfg svc
        (out ++ menuLines ++ [promptChoice]
          ++ ["Invalid Choice. Please try again."]) ev rest :=
  go_invalid_eq cfg svc out ev choice rest h1 h2 h3

/-- Claim C5 witness: instantiated at the concrete invalid input "0". -/
theorem claim_C5_witness :
    start_application_go theConfig TaskService.new [] [] ["0"] =
      start_application_go theConfig TaskService.new
        ([] ++ menuLines ++ [promptChoice]
          ++ ["Invalid Choice. Please try again."]) [] [] :=
  claim_C5 theConfig TaskService.new [] [] "0" [] (by decide) (by decide)
    (by decide)

/-- Claim C6 counterexample: on the input lines ["1", "3"] the user does
eventually enter "3", yet the loop does not terminate by printing the
goodbye message and exiting — it dies at choice "1" with a `TypeError` —
so "for every other input (including 1) the loop continues to the next
iteration" is false as stated. -/
theorem claim_C6_counterexample :
    ("3" ∈ (["1", "3"] : List String)) ∧
    (start_application theConfig ["1", "3"]).isExited = false ∧
    start_application theConfig ["1", "3"] =
      RunResult.typeError noneIterMsg
        (menuLines ++ [promptChoice] ++ ["Tasks: "])
        [Event.getAllTasks] TaskService.new :=
  ⟨by decide, rfl, rfl⟩

/-- Claim C6 (amended): the menu loop terminates by printing "Exiting the
application. Goodbye!" and exiting if and only if, processing the inputs in
the loop's order (each "2" consuming the following line as the task
description, invalid inputs continuing), a "3" is reached before any "1";
entering "1" instead aborts the loop with an uncaught `TypeError`. -/
theorem claim_C6 (inputs : List String) :
    ((start_application theConfig inputs).isExited = exitsBefore inputs) ∧
    (exitsBefore inputs = true →
      (start_application theConfig inputs).output.getLast? =
        Option.some "Exiting the application. Goodbye!") :=
  go_exit_spec inputs.length inputs (Nat.le_refl _) theConfig
    TaskService.new [] []

/-- Claim C6 witness: instantiated at the concrete input ["3"], which
exits with the goodbye message as its last printed line. -/
theorem claim_C6_witness :
    ((start_application theConfig ["3"]).isExited = exitsBefore ["3"]) ∧
    (start_application theConfig ["3"]).output.getLast? =
      Option.some "Exiting the application. Goodbye!" :=
  ⟨(claim_C6 ["3"]).1, (claim_C6 ["3"]).2 (by decide)⟩

/-- Claim C7: for every pair of strings, constructing a `Task` succeeds and
yields an object whose `title` and `description` equal the given strings;
a `Task` is nothing but these two fields (no identity field, no other
attributes), and no validation is performed (the constructor is total). -/
theorem claim_C7 (cfg : Config) (title description : String) :
    (Task.new cfg title description).title = title ∧
    (Task.new cfg title description).description = description ∧
    ∀ t : Task, t = Task.new cfg t.title t.description :=
  ⟨rfl, rfl, fun _ => rfl⟩

/-- Claim C8: no length check against `TASK_MAX_LENGTH` exists anywhere:
even when both strings are strictly longer than `TASK_MAX_LENGTH`, `Task`
construction stores them unchanged and `TaskService.add_task` behaves
exactly as for short strings (returns `None`, state unchanged). -/
theorem claim_C8 (cfg : Config) (title description : String)
    (h1 : TASK_MAX_LENGTH < title.length)
    (h2 : TASK_MAX_LENGTH < description.length) :
    (Task.new cfg title description).title = title ∧
    (Task.new cfg title description).description = description ∧
    ∀ svc : TaskService,
      svc.add_task cfg (PyVal.taskObj (Task.new cfg title description)) =
        (PyVal.none, svc) :=
  ⟨rfl, rfl, fun _ => rfl⟩

/-- A 101-character string, strictly longer than `TASK_MAX_LENGTH`. -/
def longTitle : String := String.mk (List.replicate 101 (Char.ofNat 97))

/-- Claim C8 witness: instantiated at a concrete 101-character title and
description, on the service built by `TaskService.__init__`. -/
theorem claim_C8_witness :
    (Task.new theConfig longTitle longTitle).title = longTitle ∧
    TaskService.new.add_task theConfig
        (PyVal.taskObj (Task.new theConfig longTitle longTitle)) =
      (PyVal.none, TaskService.new) :=
  ⟨(claim_C8 theConfig longTitle longTitle (by decide) (by decide)).1,
   (claim_C8 theConfig longTitle longTitle (by decide) (by decide)).2.2
     TaskService.new⟩

/-- Claim C9: the configuration constant `FILENAME` equals "data.txt", and
no operation reads it: any two configuration values produce identical
results and output for the repository methods, the service methods, `Task`
construction, `format_date` and `start_application`, so no file or
persisted state layout exists. -/
theorem claim_C9 :
    theConfig.FILENAME = "data.txt" ∧
    ∀ c1 c2 : Config,
      (∀ repo : TaskRepository, repo.get_tasks c1 = repo.get_tasks c2) ∧
      (∀ (repo : TaskRepository) (t : PyVal),
        repo.save_task c1 t = repo.save_task c2 t) ∧
      (∀ svc : TaskService, svc.get_all_tasks c1 = svc.get_all_tasks c2) ∧
      (∀ (svc : TaskService) (t : PyVal),
        svc.add_task c1 t = svc.add_task c2 t) ∧
      (∀ t d : String, Task.new c1 t d = Task.new c2 t d) ∧
      (∀ d : PyVal, format_date c1 d = format_date c2 d) ∧
      (∀ inputs : List String,
        start_application c1 inputs = start_application c2 inputs) :=
  ⟨rfl, fun c1 c2 =>
    ⟨fun _ => rfl, fun _ _ => rfl, fun _ => rfl, fun _ _ => rfl,
     fun _ _ => rfl, fun _ => rfl,
     fun inputs => go_cfg_irrelevant inputs.length inputs (Nat.le_refl _)
       c1 c2 TaskService.new [] []⟩⟩

/-- Claim C10: on choice "1", `TaskService.get_all_tasks` returns `None`,
the subsequent `for` loop iterates over `None`, and the application dies
with an unhandled `TypeError` right after printing the "Tasks: " header,
instead of displaying a (possibly empty) task list. -/
theorem claim_C10 (cfg : Config) (svc : TaskService) (out : List String)
    (ev : List Event) (rest : List String) :
    (svc.get_all_tasks cfg).1 = PyVal.none ∧
    start_application_go cfg svc out ev ("1" :: rest) =
      RunResult.typeError noneIterMsg
        (out ++ menuLines ++ [promptChoice] ++ ["Tasks: "])
        (ev ++ [Event.getAllTasks]) svc :=
  ⟨rfl, go_view_eq cfg svc out ev rest⟩

end Knotes
